import Mathlib

/-!
Verification of the haiku-generator orchestration logic.

The source is a single React component (`HaikuGenerator`).  Its state is five
`useState` cells: `input`, `haiku`, `isGenerating`, `showInfo`, `error`.  We
embed the component state as a structure and each handler as a pure state
transformer.  The single asynchronous remote call is abstracted by an
`Except String String` oracle (failure message, or response text), and the
one `Math.random()`-based draw in `generateFallbackHaiku`
(`Math.floor(Math.random() * 3)`) is abstracted by a `Fin 3` draw supplied as
a parameter.  JavaScript string `includes` is embedded as list-infix
containment on the character data.
-/

/-- Component state: the five `useState` cells of `HaikuGenerator`. -/
structure UiState where
  input : String
  haiku : String
  isGenerating : Bool
  showInfo : Bool
  error : String
deriving Repr, DecidableEq

/-- The `API_CONFIG` object.  `apiKey` is `import.meta.env.VITE_GEMINI_API_KEY`,
which may be absent (`none`) or set; JavaScript truthiness also treats the
empty string as absent. -/
structure ApiConfig where
  endpoint : String
  apiKey : Option String
  model : String
deriving Repr, DecidableEq

/-- JavaScript truthiness of `API_CONFIG.apiKey`: present and non-empty. -/
def apiKeyTruthy (cfg : ApiConfig) : Bool :=
  !((cfg.apiKey.getD "") == "")

/-- JavaScript `s.includes(pat)`: `pat` occurs contiguously in `s`. -/
def containsStr (s pat : String) : Bool :=
  decide (pat.data <:+: s.data)

/-- JavaScript `s.trim()`: strip leading and trailing whitespace.  Modelled
structurally over the character list so that it evaluates by kernel
reduction (the behaviour agrees with trimming surrounding whitespace). -/
def jsTrim (s : String) : String :=
  String.mk (((s.data.dropWhile Char.isWhitespace).reverse.dropWhile
    Char.isWhitespace).reverse)

/-- The validation message of `handleGenerate` for blank input. -/
def validationMsg : String := "Please enter a word or theme for your haiku."

/-- The message thrown by `generateHaikuFromAPI` when the key is missing. -/
def keyMissingMsg : String :=
  "Gemini API key not found. Please add VITE_GEMINI_API_KEY to your .env file."

/-- The generic default used when a caught failure has an empty message. -/
def genericErrorMsg : String := "Failed to generate haiku. Please try again."

/-- The `fallbackHaikus` array of `generateFallbackHaiku`, with the template
interpolation `\x7b$theme\x7d` rendered as string concatenation. -/
def fallbackHaikus (theme : String) : List String :=
  [ theme ++ " whispers soft\nIn morning\x27s gentle embrace\nPeace fills the warm air"
  , "Dancing with " ++ theme ++ "\nNature\x27s rhythm guides my heart\nMoments become gold"
  , theme ++ " speaks to me\nThrough silence of the old trees\nWisdom flows like streams" ]

/-- The fixed part of template `i` before the interpolated theme. -/
def templatePre : Fin 3 → String
  | 0 => ""
  | 1 => "Dancing with "
  | 2 => ""

/-- The fixed part of template `i` after the interpolated theme. -/
def templatePost : Fin 3 → String
  | 0 => " whispers soft\nIn morning\x27s gentle embrace\nPeace fills the warm air"
  | 1 => "\nNature\x27s rhythm guides my heart\nMoments become gold"
  | 2 => " speaks to me\nThrough silence of the old trees\nWisdom flows like streams"

/-- `generateFallbackHaiku`: picks `fallbackHaikus[r]` for the random draw
`r = Math.floor(Math.random() * fallbackHaikus.length)` and stores it with
`setHaiku`. -/
def generateFallbackHaiku (theme : String) (r : Fin 3) (s : UiState) : UiState :=
  { s with haiku := (fallbackHaikus theme).get ⟨r.val, r.isLt⟩ }

/-- The `catch` block of `generateHaikuFromAPI`: a rate-limit signature
(`"429"` or `"rate limit"` in the message) is only logged; any other failure
sets `error` to `err.message || genericErrorMsg`; both paths then run
`generateFallbackHaiku`. -/
def handleApiFailure (theme msg : String) (r : Fin 3) (s : UiState) : UiState :=
  let s1 :=
    if containsStr msg "429" || containsStr msg "rate limit" then s
    else { s with error := if msg == "" then genericErrorMsg else msg }
  generateFallbackHaiku theme r s1

/-- `generateHaikuFromAPI theme`, as a transformer of `UiState`.
`remote` is the outcome of `model.generateContent`: `Except.ok txt` when the
call succeeds with response text `txt`, `Except.error msg` when it fails with
an error whose `.message` is `msg`.  The returned `Bool` is a ghost flag
recording whether the missing-key `throw` branch executed (its thrown error
is caught by the same `catch`, hence routed through `handleApiFailure` with
`keyMissingMsg`).  The `finally` clears `isGenerating` on every path. -/
def generateHaikuFromAPIRun (cfg : ApiConfig) (theme : String)
    (remote : Except String String) (r : Fin 3) (s : UiState) : UiState × Bool :=
  let s1 := { s with error := "", isGenerating := true }
  let out :=
    if apiKeyTruthy cfg then
      match remote with
      | Except.ok txt => ({ s1 with haiku := jsTrim txt }, false)
      | Except.error msg => (handleApiFailure theme msg r s1, false)
    else
      (handleApiFailure theme keyMissingMsg r s1, true)
  ({ out.1 with isGenerating := false }, out.2)

/-- `handleGenerate`: trims the input; blank input only sets the validation
error; with a key it runs `generateHaikuFromAPI`; without a key it sets the
in-progress flag, waits 1500 ms (timing is not modelled), runs
`generateFallbackHaiku`, and clears the flag.  The `Bool` is the ghost
missing-key-branch flag of `generateHaikuFromAPIRun`. -/
def handleGenerateRun (cfg : ApiConfig) (remote : Except String String)
    (r : Fin 3) (s : UiState) : UiState × Bool :=
  let theme := jsTrim s.input
  if theme == "" then ({ s with error := validationMsg }, false)
  else if apiKeyTruthy cfg then generateHaikuFromAPIRun cfg theme remote r s
  else
    let s1 := { s with isGenerating := true }
    let s2 := generateFallbackHaiku theme r s1
    ({ s2 with isGenerating := false }, false)

/-- The state part of `handleGenerateRun`. -/
def handleGenerate (cfg : ApiConfig) (remote : Except String String)
    (r : Fin 3) (s : UiState) : UiState :=
  (handleGenerateRun cfg remote r s).1

/-- `handleSampleClick word`: sets the input to the word, clears the error. -/
def handleSampleClick (word : String) (s : UiState) : UiState :=
  { s with input := word, error := "" }

/-- The `sampleWords` array. -/
def sampleWords : List String :=
  ["sunset", "ocean", "dream", "hope", "love", "rain", "spring", "joy"]

/-- A fixed witness state used to instantiate hypotheses concretely. -/
def wState : UiState :=
  { input := "tree", haiku := "old haiku", isGenerating := false
  , showInfo := false, error := "old error" }

/-- A configuration with an API key present. -/
def wCfgKey : ApiConfig := { endpoint := "e", apiKey := some "k", model := "m" }

/-- A configuration with no API key. -/
def wCfgNoKey : ApiConfig := { endpoint := "e", apiKey := none, model := "m" }

theorem containsStr_of_parts (pre post s pat : String)
    (h : s = pre ++ pat ++ post) : containsStr s pat = true := by
  subst h
  simp only [containsStr, decide_eq_true_eq]
  exact ⟨pre.data, post.data, by simp [String.data_append]⟩

theorem generateFallbackHaiku_haiku (theme : String) (r : Fin 3) (s : UiState) :
    (generateFallbackHaiku theme r s).haiku
      = templatePre r ++ theme ++ templatePost r := by
  fin_cases r <;> simp [generateFallbackHaiku, fallbackHaikus, templatePre, templatePost]

theorem generateFallbackHaiku_mem (theme : String) (r : Fin 3) (s : UiState) :
    (generateFallbackHaiku theme r s).haiku ∈ fallbackHaikus theme := by
  fin_cases r <;> simp [generateFallbackHaiku, fallbackHaikus]

theorem generateFallbackHaiku_frame (theme : String) (r : Fin 3) (s : UiState) :
    (generateFallbackHaiku theme r s).input = s.input ∧
    (generateFallbackHaiku theme r s).error = s.error ∧
    (generateFallbackHaiku theme r s).isGenerating = s.isGenerating := by
  simp [generateFallbackHaiku]

/-- C1: with an API key configured and a non-empty trimmed input, a successful
remote call with response text `resp` stores `resp` trimmed of surrounding
whitespace as the haiku result, and the error message ends up empty. -/
theorem apiSuccess_stores_trimmed_and_clears_error
    (cfg : ApiConfig) (resp : String) (r : Fin 3) (s : UiState)
    (hkey : apiKeyTruthy cfg = true) (hne : jsTrim s.input ≠ "") :
    (handleGenerate cfg (Except.ok resp) r s).haiku = jsTrim resp ∧
    (handleGenerate cfg (Except.ok resp) r s).error = "" := by
  have hb : (jsTrim s.input == "") = false := by simp [hne]
  simp [handleGenerate, handleGenerateRun, generateHaikuFromAPIRun, hb, hkey]

theorem apiSuccess_stores_trimmed_and_clears_error_witness :
    (handleGenerate wCfgKey (Except.ok "  Line1\nLine2\nLine3  ") 0 wState).haiku
      = jsTrim "  Line1\nLine2\nLine3  " ∧
    (handleGenerate wCfgKey (Except.ok "  Line1\nLine2\nLine3  ") 0 wState).error
      = "" :=
  apiSuccess_stores_trimmed_and_clears_error wCfgKey "  Line1\nLine2\nLine3  " 0
    wState (by decide) (by decide)

/-- C2 counterexample: with no API key, a non-empty input and a non-empty
prior error message "old error", the error state after the attempt is still
"old error", not the empty string — the no-key path never touches the error
cell, so the claim that the error state is empty after the attempt for every
prior value is false. -/
theorem noKey_stale_error_persists_cex :
    (handleGenerate wCfgNoKey (Except.ok "x") 0 wState).error = "old error" ∧
    (handleGenerate wCfgNoKey (Except.ok "x") 0 wState).error ≠ "" := by
  constructor <;> decide

/-- C2 (amended): with no API key and a non-empty trimmed input,
`handleGenerate` produces a fallback haiku that contains the theme as a
substring, and signals no error: the error state is left unchanged by the
attempt (in particular it is empty afterwards whenever it was empty before),
and the in-progress flag ends false. -/
theorem noKey_fallback_contains_theme_error_unchanged
    (cfg : ApiConfig) (remote : Except String String) (r : Fin 3) (s : UiState)
    (hkey : apiKeyTruthy cfg = false) (hne : jsTrim s.input ≠ "") :
    containsStr (handleGenerate cfg remote r s).haiku (jsTrim s.input) = true ∧
    (handleGenerate cfg remote r s).error = s.error ∧
    (handleGenerate cfg remote r s).isGenerating = false := by
  have hb : (jsTrim s.input == "") = false := by simp [hne]
  have hhk : (handleGenerate cfg remote r s).haiku
      = templatePre r ++ jsTrim s.input ++ templatePost r := by
    simp [handleGenerate, handleGenerateRun, hb, hkey, generateFallbackHaiku_haiku]
  refine ⟨containsStr_of_parts _ _ _ _ hhk, ?_, ?_⟩ <;>
    simp [handleGenerate, handleGenerateRun, hb, hkey, generateFallbackHaiku]

theorem noKey_fallback_contains_theme_error_unchanged_witness :
    containsStr (handleGenerate wCfgNoKey (Except.ok "x") 2 wState).haiku
      (jsTrim "tree") = true ∧
    (handleGenerate wCfgNoKey (Except.ok "x") 2 wState).error = "old error" ∧
    (handleGenerate wCfgNoKey (Except.ok "x") 2 wState).isGenerating = false :=
  noKey_fallback_contains_theme_error_unchanged wCfgNoKey (Except.ok "x") 2
    wState (by decide) (by decide)

/-- C3: with a key configured and non-empty trimmed input, a remote failure
whose message contains "429" or "rate limit" leaves the user-visible error
empty (it was cleared at the start of the attempt and never re-set) and puts
one of the three theme-filled fallback templates in the haiku result. -/
theorem rateLimit_failure_fallback_no_error
    (cfg : ApiConfig) (msg : String) (r : Fin 3) (s : UiState)
    (hkey : apiKeyTruthy cfg = true) (hne : jsTrim s.input ≠ "")
    (hrl : containsStr msg "429" = true ∨ containsStr msg "rate limit" = true) :
    (handleGenerate cfg (Except.error msg) r s).error = "" ∧
    (handleGenerate cfg (Except.error msg) r s).haiku
      ∈ fallbackHaikus (jsTrim s.input) := by
  have hb : (jsTrim s.input == "") = false := by simp [hne]
  have hor : (containsStr msg "429" || containsStr msg "rate limit") = true := by
    rcases hrl with h | h <;> simp [h]
  constructor <;>
    simp [handleGenerate, handleGenerateRun, generateHaikuFromAPIRun,
      handleApiFailure, hb, hkey, hor, generateFallbackHaiku,
      generateFallbackHaiku_mem]

theorem rateLimit_failure_fallback_no_error_witness :
    (handleGenerate wCfgKey (Except.error "HTTP 429: quota") 1 wState).error
      = "" ∧
    (handleGenerate wCfgKey (Except.error "HTTP 429: quota") 1 wState).haiku
      ∈ fallbackHaikus (jsTrim "tree") :=
  rateLimit_failure_fallback_no_error wCfgKey "HTTP 429: quota" 1 wState
    (by decide) (by decide) (Or.inl (by decide))

/-- C4: with a key configured and non-empty trimmed input, a remote failure
whose message contains neither "429" nor "rate limit" sets the error message
to the failure message (or the generic default when that message is empty)
AND sets the haiku result to one of the theme-filled fallback templates, so
both are populated simultaneously (the error is non-empty). -/
theorem generic_failure_sets_error_and_fallback
    (cfg : ApiConfig) (msg : String) (r : Fin 3) (s : UiState)
    (hkey : apiKeyTruthy cfg = true) (hne : jsTrim s.input ≠ "")
    (h429 : containsStr msg "429" = false)
    (hrlim : containsStr msg "rate limit" = false) :
    (handleGenerate cfg (Except.error msg) r s).error
      = (if msg = "" then genericErrorMsg else msg) ∧
    (handleGenerate cfg (Except.error msg) r s).error ≠ "" ∧
    (handleGenerate cfg (Except.error msg) r s).haiku
      ∈ fallbackHaikus (jsTrim s.input) := by
  have hb : (jsTrim s.input == "") = false := by simp [hne]
  have hor : (containsStr msg "429" || containsStr msg "rate limit") = false := by
    simp [h429, hrlim]
  have herr : (handleGenerate cfg (Except.error msg) r s).error
      = (if msg = "" then genericErrorMsg else msg) := by
    simp [handleGenerate, handleGenerateRun, generateHaikuFromAPIRun,
      handleApiFailure, hb, hkey, hor, generateFallbackHaiku]
  refine ⟨herr, ?_, ?_⟩
  · rw [herr]
    by_cases hm : msg = "" <;> simp [hm, genericErrorMsg]
  · simp [handleGenerate, handleGenerateRun, generateHaikuFromAPIRun,
      handleApiFailure, hb, hkey, hor, generateFallbackHaiku,
      generateFallbackHaiku_mem]

theorem generic_failure_sets_error_and_fallback_witness :
    (handleGenerate wCfgKey (Except.error "Network error") 0 wState).error
      = (if "Network error" = "" then genericErrorMsg else "Network error") ∧
    (handleGenerate wCfgKey (Except.error "Network error") 0 wState).error
      ≠ "" ∧
    (handleGenerate wCfgKey (Except.error "Network error") 0 wState).haiku
      ∈ fallbackHaikus (jsTrim "tree") :=
  generic_failure_sets_error_and_fallback wCfgKey "Network error" 0 wState
    (by decide) (by decide) (by decide) (by decide)

/-- C5: when the trimmed input is empty, `handleGenerate` only sets the
validation message as the error; every other state cell (input, haiku,
in-progress flag, info flag) is unchanged and no generation runs. -/
theorem blank_input_validation_only
    (cfg : ApiConfig) (remote : Except String String) (r : Fin 3) (s : UiState)
    (h : jsTrim s.input = "") :
    handleGenerate cfg remote r s = { s with error := validationMsg } := by
  simp [handleGenerate, handleGenerateRun, h]

theorem blank_input_validation_only_witness :
    handleGenerate wCfgKey (Except.ok "x") 0
        { input := "   ", haiku := "old haiku", isGenerating := false
        , showInfo := false, error := "" }
      = { input := "   ", haiku := "old haiku", isGenerating := false
        , showInfo := false, error := validationMsg } :=
  blank_input_validation_only wCfgKey (Except.ok "x") 0
    { input := "   ", haiku := "old haiku", isGenerating := false
    , showInfo := false, error := "" } (by decide)

/-- C6: for every generation attempt on a non-empty trimmed input — API
success, rate-limit failure, generic failure, or the no-key fallback path —
the in-progress flag is false when the attempt ends. -/
theorem inProgress_cleared_on_all_paths
    (cfg : ApiConfig) (remote : Except String String) (r : Fin 3) (s : UiState)
    (hne : jsTrim s.input ≠ "") :
    (handleGenerate cfg remote r s).isGenerating = false := by
  have hb : (jsTrim s.input == "") = false := by simp [hne]
  cases hk : apiKeyTruthy cfg <;> cases remote <;>
    simp [handleGenerate, handleGenerateRun, generateHaikuFromAPIRun,
      handleApiFailure, generateFallbackHaiku, hb, hk]

theorem inProgress_cleared_on_all_paths_witness :
    (handleGenerate wCfgKey (Except.error "Network error") 0 wState).isGenerating
      = false :=
  inProgress_cleared_on_all_paths wCfgKey (Except.error "Network error") 0
    wState (by decide)

/-- C7: the fallback pool has exactly three templates; the draw `r` selects
template `r`, which is a fixed prefix, the theme, then a fixed suffix (one
embedded occurrence of the theme per template); every possible output is a
member of the pool; and distinct draws yield distinct outputs, so the
uniform draw induces a uniform choice among the three templates. -/
theorem fallback_uniform_among_three_templates
    (theme : String) (r : Fin 3) (s : UiState) :
    (fallbackHaikus theme).length = 3 ∧
    (generateFallbackHaiku theme r s).haiku
      = templatePre r ++ theme ++ templatePost r ∧
    (generateFallbackHaiku theme r s).haiku ∈ fallbackHaikus theme ∧
    (∀ i j : Fin 3, i ≠ j →
      (generateFallbackHaiku theme i s).haiku
        ≠ (generateFallbackHaiku theme j s).haiku) := by
  refine ⟨rfl, generateFallbackHaiku_haiku theme r s,
    generateFallbackHaiku_mem theme r s, ?_⟩
  intro i j hij h
  rw [generateFallbackHaiku_haiku theme i s,
    generateFallbackHaiku_haiku theme j s] at h
  have hl : (templatePre i).length + theme.length + (templatePost i).length
      = (templatePre j).length + theme.length + (templatePost j).length := by
    have := congrArg String.length h
    simpa [String.length_append] using this
  have hl2 : (templatePre i).length + (templatePost i).length
      = (templatePre j).length + (templatePost j).length := by omega
  fin_cases i <;> fin_cases j <;>
    first
      | exact hij rfl
      | exact absurd hl2 (by decide)

theorem fallback_uniform_among_three_templates_witness :
    (generateFallbackHaiku "tree" 0 wState).haiku
      ≠ (generateFallbackHaiku "tree" 1 wState).haiku :=
  (fallback_uniform_among_three_templates "tree" 0 wState).2.2.2 0 1 (by decide)

/-- C8: clicking a sample word sets the input state to that exact word and
clears the error, while the haiku result, the in-progress flag and the info
flag are unchanged (the handler triggers no generation). -/
theorem sampleClick_sets_input_clears_error
    (word : String) (s : UiState) (h : word ∈ sampleWords) :
    (handleSampleClick word s).input = word ∧
    (handleSampleClick word s).error = "" ∧
    (handleSampleClick word s).haiku = s.haiku ∧
    (handleSampleClick word s).isGenerating = s.isGenerating ∧
    (handleSampleClick word s).showInfo = s.showInfo := by
  simp [handleSampleClick]

theorem sampleClick_sets_input_clears_error_witness :
    (handleSampleClick "sunset" wState).input = "sunset" ∧
    (handleSampleClick "sunset" wState).error = "" ∧
    (handleSampleClick "sunset" wState).haiku = wState.haiku ∧
    (handleSampleClick "sunset" wState).isGenerating = wState.isGenerating ∧
    (handleSampleClick "sunset" wState).showInfo = wState.showInfo :=
  sampleClick_sets_input_clears_error "sunset" wState (by decide)

/-- C9: the ghost flag of `handleGenerateRun` records whether the
missing-key `throw` branch inside `generateHaikuFromAPI` executed; it is
false on every path (for every configuration, input, remote outcome and
draw), because `handleGenerate` only calls `generateHaikuFromAPI` when the
API key is truthy, so the missing-key error message is never produced. -/
theorem keyMissing_branch_unreachable
    (cfg : ApiConfig) (remote : Except String String) (r : Fin 3)
    (s : UiState) :
    (handleGenerateRun cfg remote r s).2 = false := by
  cases hb : (jsTrim s.input == "") <;> cases hk : apiKeyTruthy cfg <;>
    cases remote <;>
      simp [handleGenerateRun, generateHaikuFromAPIRun, hb, hk]

/-- C10: when the theme contains no newline character, every fallback haiku
contains exactly two newline characters, i.e. consists of three lines. -/
theorem fallback_three_lines
    (theme : String) (r : Fin 3) (s : UiState)
    (h : theme.data.count '\n' = 0) :
    ((generateFallbackHaiku theme r s).haiku).data.count '\n' = 2 := by
  rw [generateFallbackHaiku_haiku]
  have hc : ∀ k : Fin 3, ((templatePre k).data.count '\n'
      + (templatePost k).data.count '\n') = 2 := by decide
  have hr := hc r
  simp [String.data_append, List.count_append, h]
  omega

theorem fallback_three_lines_witness :
    ((generateFallbackHaiku "tree" 2 wState).haiku).data.count '\n' = 2 :=
  fallback_three_lines "tree" 2 wState (by decide)
